import Mathlib

/-!
Shallow embedding of the game-state classifier and FPS estimation fusion
engine of the floating-ball monitor (source: 小浩悬浮球_QT版本.py,
class SystemInfoWorker), together with theorems settling the frozen
claims about it.

Modelling conventions:
* Python floats are modelled as `ℚ` in the aggregation / classification
  layer (only field arithmetic and comparisons occur there) and as `ℝ` in
  the smoothing layer (which uses the real power `(i+1) ** 1.3`).
* Python `int()` truncation is `pyInt`, Python `round()` (half-to-even)
  is `pyRound`, Python string lowering / containment / splitting are
  `pyLower`, `containsSubstr`, `pySplit` on the underlying char lists.
* Opaque platform probes (foreground window, process list, GPU query,
  shared-memory reader, performance counters, refresh rate) are inputs in
  an environment record; a probe that the source wraps in try/except is
  modelled as `Option`/`Except Unit` valued, `none`/`error` meaning the
  call raised or produced nothing.  The estimation-cycle time budget
  (0.25 s wall clock) is abstracted by the number `attempted` of
  estimators examined before the loop breaks.
-/

/-- Boolean infix (substring) test on char lists: does `hay` contain
`needle` as a contiguous run?  Mirrors Python `needle in hay`. -/
def listInfix (needle : List Char) : List Char → Bool
  | [] => needle.isEmpty
  | c :: rest => needle.isPrefixOf (c :: rest) || listInfix needle rest

/-- Python `needle in hay` on strings. -/
def containsSubstr (hay needle : String) : Bool :=
  listInfix needle.data hay.data

/-- Python `str.lower()` (ASCII case folding, identity on CJK chars). -/
def pyLower (s : String) : String := String.mk (s.data.map Char.toLower)

/-- Python truthiness of an optional string (`None` and `""` are falsy). -/
def pyTruthy : Option String → Bool
  | some s => !s.data.isEmpty
  | none => false

/-- Fuel-driven, left-to-right, non-overlapping replacement of `pat` by
`rep`, as Python `str.replace` for a non-empty pattern (the source only
replaces the literal ".exe"). -/
def replaceFuel (rep pat : List Char) : ℕ → List Char → List Char
  | 0, l => l
  | _ + 1, [] => []
  | n + 1, c :: rest =>
    if pat.isEmpty = false ∧ pat.isPrefixOf (c :: rest) then
      rep ++ replaceFuel rep pat n ((c :: rest).drop pat.length)
    else
      c :: replaceFuel rep pat n rest

/-- Python `s.replace(pat, rep)` for non-empty `pat`. -/
def pyReplace (s pat rep : String) : String :=
  String.mk (replaceFuel rep.data pat.data s.data.length s.data)

/-- Splitting helper: cut a char list at spaces. -/
def splitWsAux : List Char → List Char → List (List Char)
  | [], acc => [acc.reverse]
  | c :: rest, acc =>
    if c = ' ' then acc.reverse :: splitWsAux rest []
    else splitWsAux rest (c :: acc)

/-- Python `str.split()` for space-separated strings (empty pieces are
dropped). -/
def pySplit (s : String) : List String :=
  ((splitWsAux s.data []).filter (fun p => p.isEmpty = false)).map String.mk

/-- Python slice `l[-n:]`. -/
def takeLast (n : ℕ) (l : List α) : List α := l.drop (l.length - n)

/-- Python `int(q)`: truncation toward zero. -/
def pyInt (q : ℚ) : ℤ := if 0 ≤ q then ⌊q⌋ else ⌈q⌉

/-!  Registry: the static process/title sets of the source module. -/

/-- Static set NON_GAME_PROCESSES (browsers, players, office, meetings,
recording, remote tools). -/
def NON_GAME_PROCESSES : List String :=
  ["chrome.exe", "msedge.exe", "firefox.exe", "iexplore.exe", "qqbrowser.exe", "360se.exe",
   "potplayer.exe", "vlc.exe", "mpv.exe", "bilibili.exe", "youku.exe", "iQIYI.exe", "qqvideo.exe",
   "powerpnt.exe", "winword.exe", "excel.exe", "wps.exe", "photoshop.exe", "afterfx.exe", "premiere.exe",
   "weixin.exe", "wechat.exe", "qq.exe", "dingtalk.exe", "teams.exe", "zoom.exe",
   "obs64.exe", "obs32.exe",
   "mstsc.exe", "steamwebhelper.exe"]

/-- Static set NON_GAME_TITLE_KEYWORDS. -/
def NON_GAME_TITLE_KEYWORDS : List String :=
  ["浏览器", "视频", "播放器", "potplayer", "vlc", "mpv", "bilibili", "优酷", "爱奇艺", "腾讯视频",
   "网易云", "酷狗", "WPS", "PowerPoint", "Word", "Excel", "Photoshop", "Premiere", "After Effects",
   "OBS", "Zoom", "Teams", "微信", "QQ", "Microsoft Edge", "Edge", "浏览网页", "YouTube", "Netflix", "Twitch"]

/-- Static set LAUNCHER_PROCESSES (game platform launchers, excluded as
game bodies). -/
def LAUNCHER_PROCESSES : List String :=
  ["steam.exe", "epicgameslauncher.exe", "uplay.exe", "origin.exe", "battle.net.exe",
   "blizzard.exe", "eaapp.exe", "ubisoftconnect.exe", "riotclientux.exe", "rockstar launcher.exe",
   "battlenet.exe"]

/-- Static list COMMON_GAME_PROCESSES.  The entry
"crossfire_x.exegtav.exe" reproduces the source faithfully: the Python
literal list has a missing comma between "crossfire_x.exe" and
"gtav.exe", so the two adjacent string literals are concatenated. -/
def COMMON_GAME_PROCESSES : List String :=
  ["steam.exe", "epicgameslauncher.exe", "uplay.exe", "origin.exe", "battle.net.exe",
   "blizzard.exe", "eaapp.exe", "rockstar launcher.exe", "ubisoftconnect.exe",
   "battlenet.exe", "riotclientux.exe",
   "valorant.exe", "csgo.exe", "cs2.exe", "counter-strike2.exe", "overwatch.exe", "overwatch2.exe",
   "fortniteclient-win64-shipping.exe", "tslgame.exe", "pubg.exe", "pubgclient.exe",
   "callofduty.exe", "modernwarfare.exe", "modernwarfare2.exe", "modernwarfare3.exe",
   "cod.exe", "warzone.exe", "warzone2.exe", "battlefield1.exe", "battlefield5.exe",
   "battlefield2042.exe", "fearless.exe", "readyornot.exe", "crossfire.exe", "cf.exe",
   "crossfire_launcher.exe", "crossfire_x.exegtav.exe", "cyberpunk2077.exe", "residentevil.exe", "residentevil2.exe",
   "residentevil3.exe", "residentevil4.exe", "residentevilvillage.exe", "godofwar.exe",
   "assassinscreed.exe", "eldenring.exe", "sekiro.exe", "darkSoulsIII.exe",
   "starfield.exe", "reddeadredemption2.exe", "rdr2.exe", "minecraft.exe",
   "minecraftlauncher.exe", "theforest.exe", "sonsoftheforest.exe", "skyrim.exe",
   "fallout4.exe", "fallout76.exe", "witcher3.exe", "deathloop.exe", "horizonzerodawn.exe",
   "forspoken.exe", "atomicheart.exe", "liesofp.exe", "diablo4.exe", "diablo3.exe",
   "leagueclient.exe", "league of legends.exe", "lol.exe", "dota2.exe", "teamfighttactics.exe",
   "hearthstone.exe", "autochess.exe", "starcraft2.exe", "ageofempires4.exe", "civilizationvi.exe",
   "fifa23.exe", "fifa24.exe", "nba2k23.exe", "nba2k24.exe", "rocketleague.exe",
   "easportsfc24.exe",
   "worldofwarcraft.exe", "wow.exe", "pathofexile.exe", "lostark.exe", "genshinimpact.exe",
   "honkaiimpact3.exe", "honkaistarrail.exe", "apex.exe", "apexlegends.exe", "rainbowsix.exe",
   "rainbow six siege.exe", "siege.exe", "palworld.exe", "helldivers2.exe", "baldursgate3.exe",
   "bg3.exe", "phasmophobia.exe", "amnesia.exe", "deadbydaylight.exe", "amongus.exe",
   "phoenixpoint.exe", "xcom.exe", "xcom2.exe", "stardewvalley.exe", "terraria.exe"]

/-- Game keyword vocabulary used by the window-title fallback rule of
detect_gaming. -/
def GAME_TITLE_KEYWORDS : List String :=
  ["game", "gaming", "fps", "rpg", "moba", "mmo", "online",
   "battle", "war", "fight", "shoot", "race", "simulator",
   "使命召唤", "cod", "cs2", "csgo", "valorant", "彩虹六号",
   "lol", "dota", "fortnite", "pubg", "apex", "原神",
   "genshin", "gta", "cyberpunk", "赛博朋克", "elden", "艾尔登",
   "starfield", "星空", "palworld", "幻兽帕鲁", "baldurs", "博德之门",
   "cf", "crossfire", "穿越火线", "cfhd", "cf战场", "cf爆破"]

/-!  Data model of the classifier. -/

/-- First GPU as reported by GPUtil: fractional load in [0,1] and memory
figures. -/
structure GpuInfo where
  load : ℚ
  memoryUsed : ℚ
  memoryTotal : ℚ

/-- One entry of psutil.process_iter: the process name and its
cpu_percent field (None is possible). -/
structure ProcInfo where
  name : String
  cpu : Option ℚ

/-- Runtime-tunable registry configuration: STRICT_NON_GAME_FULLSCREEN,
CUSTOM_NON_GAME_PROCESSES and CUSTOM_NON_GAME_TITLE_KEYWORDS. -/
structure Config where
  strict : Bool
  customProcs : List String
  customTitles : List String

/-- Platform probe results available to one detect_gaming call.
`gpuLoad` is the cached GPU load percentage (`none` when the attribute
was never set); `fgWin32` is the win32 foreground-process lookup
(`error` models a raised exception, `ok none` a null window);
`fgCtypes` is the ctypes fallback `_get_foreground_process_name()`
result (that helper lowercases and never raises); `title` is
`_get_active_window_title()`; `gpus` is `GPUtil.getGPUs()` (`error` a
raise, `ok none` an empty list); `procs` the psutil process table. -/
structure DetectEnv where
  gpuLoad : Option ℚ
  fullscreen : Bool
  fgWin32 : Except Unit (Option String)
  fgCtypes : Option String
  title : Option String
  gpus : Except Unit (Option GpuInfo)
  procs : List ProcInfo

/-- Mutable attributes of SystemInfoWorker read and written by
detect_gaming: the hysteresis cache (_last_detection_result and
_last_detection_time) and the window-title cache. -/
structure DetectState where
  lastDetection : Option (Bool × ℚ)
  cachedTitle : Option (Option String)
  lastWindowCheck : ℚ

/-- Record a fresh decision into the hysteresis cache (every return site
of the body of detect_gaming sets _last_detection_result and
_last_detection_time before returning). -/
def recordResult (b : Bool) (st : DetectState) (now : ℚ) : Bool × DetectState :=
  (b, { st with lastDetection := some (b, now) })

/-- Foreground name resolved by the win32 path of the first block of
detect_gaming (lowercased on success). -/
def fgResolvedA (env : DetectEnv) : Option String :=
  match env.fgWin32 with
  | Except.ok (some raw) => some (pyLower raw)
  | _ => none

/-- Foreground name after the ctypes fallback of the first block: the
fallback fires when the win32 result is falsy. -/
def fgResolved (env : DetectEnv) : Option String :=
  if pyTruthy (fgResolvedA env) then fgResolvedA env else env.fgCtypes

/-- Union of static and user-extended non-game process sets together
with the launcher set, as built at the head of detect_gaming. -/
def combinedProcs (cfg : Config) : List String :=
  NON_GAME_PROCESSES ++ cfg.customProcs ++ LAUNCHER_PROCESSES

/-- Union of static and user-extended non-game title keyword sets. -/
def combinedTitles (cfg : Config) : List String :=
  NON_GAME_TITLE_KEYWORDS ++ cfg.customTitles

/-- Lowercased active window title (empty when the probe yields
nothing). -/
def windowLower (env : DetectEnv) : String := pyLower (env.title.getD (""))

/-- Denylist trigger of detect_gaming: the foreground process is in the
combined non-game set, or the window title contains a combined non-game
keyword. -/
def denyMatch (cfg : Config) (env : DetectEnv) : Bool :=
  (pyTruthy (fgResolved env) && (combinedProcs cfg).contains ((fgResolved env).getD ("")))
    || (combinedTitles cfg).any (fun kw => containsSubstr (windowLower env) kw)

/-- Non-game-fullscreen flag of the first block (computed only under
STRICT_NON_GAME_FULLSCREEN; note it re-tests exactly the denylist
condition that already returned False, so it is False whenever it is
reached). -/
def nonGameFullscreen (cfg : Config) (env : DetectEnv) : Bool :=
  env.fullscreen && cfg.strict && denyMatch cfg env

/-- GPU-load block of detect_gaming (the code guarded by
hasattr(self, '_cached_gpu_load')): denylist early exit, the 35 % rule,
the fullscreen 25 % rule and the non-game-fullscreen override.  Returns
`some b` when the block returns `b`, `none` when control falls
through. -/
def gpuPhase (cfg : Config) (env : DetectEnv) : Option Bool :=
  match env.gpuLoad with
  | none => none
  | some load =>
    if denyMatch cfg env then some false
    else
      let ingf := nonGameFullscreen cfg env
      if 35 ≤ load ∧ ingf = false then some true
      else if env.fullscreen ∧ ingf = false ∧ 25 ≤ load then some true
      else if ingf = true then
        match env.gpus with
        | Except.error _ => if 70 ≤ load then some true else none
        | Except.ok none => none
        | Except.ok (some g) =>
          let mu := if 0 < g.memoryTotal then g.memoryUsed / g.memoryTotal else 0
          if 60 ≤ load ∧ 0.7 ≤ mu then some true else none
      else none

/-- Window-title cache refresh (the _cached_window_title attribute is
refreshed when absent or older than 0.3 s). -/
def refreshTitle (env : DetectEnv) (st : DetectState) (now : ℚ) : Option String × DetectState :=
  if st.cachedTitle = none ∨ 0.3 < now - st.lastWindowCheck then
    (env.title, { st with cachedTitle := some env.title, lastWindowCheck := now })
  else (st.cachedTitle.getD none, st)

/-- Window-title keyword fallback: game vocabulary match, then loose
match against known game process base names. -/
def titleKeywordPhase (title : Option String) : Option Bool :=
  match title with
  | none => none
  | some t =>
    if t.data.isEmpty then none
    else
      let wl := pyLower t
      if GAME_TITLE_KEYWORDS.any (fun kw => containsSubstr wl kw) then some true
      else if COMMON_GAME_PROCESSES.any (fun g =>
          let base := pyLower (pyReplace g (".exe") (""))
          containsSubstr wl base || (pySplit base).any (fun part => containsSubstr wl part)) then
        some true
      else none

/-- Foreground name resolution of the second block of detect_gaming
(the ctypes fallback fires only when the win32 path raises). -/
def fgResolvedTail (env : DetectEnv) : Option String :=
  match env.fgWin32 with
  | Except.ok (some raw) => some (pyLower raw)
  | Except.ok none => none
  | Except.error _ => env.fgCtypes

/-- Foreground-process allowlist rule: the foreground process is a known
game process and not a launcher. -/
def fgGamePhase (env : DetectEnv) : Option Bool :=
  let fg := fgResolvedTail env
  if pyTruthy fg then
    let n := fg.getD ("")
    if (COMMON_GAME_PROCESSES.map pyLower).contains n ∧ LAUNCHER_PROCESSES.contains n = false then
      some true
    else none
  else none

/-- High-CPU scan: any running process with cpu_percent above 1.5 whose
name is a known game process. -/
def highCpuPhase (env : DetectEnv) : Option Bool :=
  let highCpu := (env.procs.filter (fun p =>
      match p.cpu with
      | some c => decide (c ≠ 0 ∧ 1.5 < c)
      | none => false)).map (fun p => pyLower p.name)
  if highCpu.any (fun n => (COMMON_GAME_PROCESSES.map pyLower).contains n) then some true
  else none

/-- Non-game-fullscreen recomputation used by the later heuristics; it
consults only the static sets and the ctypes foreground probe. -/
def nonGameFullscreenStatic (env : DetectEnv) : Bool :=
  env.fullscreen &&
    ((pyTruthy env.fgCtypes && NON_GAME_PROCESSES.contains (env.fgCtypes.getD ("")))
      || NON_GAME_TITLE_KEYWORDS.any (fun kw => containsSubstr (windowLower env) kw))

/-- GPU resource-pattern heuristic: load above 45 % plus memory
utilisation evidence (higher bars inside a non-game fullscreen
context). -/
def gpuPatternPhase (env : DetectEnv) : Option Bool :=
  match env.gpuLoad with
  | none => none
  | some loadPct =>
    let gl := loadPct / 100
    if 0.45 < gl then
      let ingf := nonGameFullscreenStatic env
      match env.gpus with
      | Except.error _ => none
      | Except.ok none => none
      | Except.ok (some g) =>
        if 0 < g.memoryTotal then
          let mu := g.memoryUsed / g.memoryTotal
          if ingf = false ∧ 0.5 < mu then some true
          else if ingf = true ∧ 0.75 < mu ∧ 0.7 < gl then some true
          else none
        else none
    else none

/-- Final running-process intersection rule: known game processes that
are currently running, with launcher-only evidence requiring higher GPU
load and memory support. -/
def runningProcsPhase (env : DetectEnv) : Option Bool :=
  let running := env.procs.map (fun p => pyLower p.name)
  let commonLower := COMMON_GAME_PROCESSES.map pyLower
  let inter := commonLower.filter (fun n => running.contains n)
  if inter.isEmpty then none
  else
    let nonLauncher := inter.filter (fun p => LAUNCHER_PROCESSES.contains p = false)
    let ingf := nonGameFullscreenStatic env
    if nonLauncher.isEmpty = false then
      match env.gpuLoad with
      | some load => if 10 < load ∧ ingf = false then some true else none
      | none => none
    else
      match env.gpuLoad with
      | none => none
      | some load =>
        if ingf = false then
          match env.gpus with
          | Except.error _ => if 60 ≤ load then some true else none
          | Except.ok gop =>
            let memOk : Bool :=
              match gop with
              | some g => decide (0 < g.memoryTotal) && decide ((0.6 : ℚ) ≤ g.memoryUsed / g.memoryTotal)
              | none => false
            if 50 ≤ load ∧ memOk = true then some true else none
        else none

/-- Body of detect_gaming past the hysteresis cache, in the rule order
of the source; every decision is recorded in the hysteresis cache. -/
def detectGamingCore (cfg : Config) (env : DetectEnv) (st : DetectState) (now : ℚ) :
    Bool × DetectState :=
  match gpuPhase cfg env with
  | some b => recordResult b st now
  | none =>
    let tc := refreshTitle env st now
    match titleKeywordPhase tc.1 with
    | some b => recordResult b tc.2 now
    | none =>
      match fgGamePhase env with
      | some b => recordResult b tc.2 now
      | none =>
        match highCpuPhase env with
        | some b => recordResult b tc.2 now
        | none =>
          match gpuPatternPhase env with
          | some b => recordResult b tc.2 now
          | none =>
            match runningProcsPhase env with
            | some b => recordResult b tc.2 now
            | none => recordResult false tc.2 now

/-- detect_gaming: asymmetric hysteresis cache (positive results reused
for 0.5 s, negative for 0.2 s) in front of the decision body. -/
def detectGaming (cfg : Config) (env : DetectEnv) (st : DetectState) (now : ℚ) :
    Bool × DetectState :=
  match st.lastDetection with
  | some (b, t) =>
    if b = true ∧ now - t < 0.5 then (true, st)
    else if b = false ∧ now - t < 0.2 then (false, st)
    else detectGamingCore cfg env st now
  | none => detectGamingCore cfg env st now

/-- Time stamp stored in the hysteresis cache (0 when empty). -/
def decisionTime (st : DetectState) : ℚ :=
  match st.lastDetection with
  | some p => p.2
  | none => 0

/-- Cache-miss condition: the hysteresis cache does not short-circuit a
call at time `now`. -/
def noCacheHit (st : DetectState) (now : ℚ) : Prop :=
  match st.lastDetection with
  | some (b, t) => (b = true → 0.5 ≤ now - t) ∧ (b = false → 0.2 ≤ now - t)
  | none => True

/-!  FPS candidate aggregation (get_fps, lines before smoothing). -/

/-- Platform probe results available to one get_fps call.  The five
estimator fields model the outcomes of the five methods of the fusion
list, in confidence order: _get_fps_using_rtss_shared_memory,
_get_fps_using_windows_gaming_api,
_get_fps_using_gpu_performance_counters, _get_fps_using_direct_query and
_get_fps_using_gpu_load_temp_and_memory (`error` models a method call
that raised).  `attempted` abstracts the 0.25 s wall-clock budget of the
loop: it is the number of methods the loop examines before the budget
check breaks out.  `hasQpc`, `qpcOk` and `qpcElapsed` model the
QueryPerformanceCounter frame-time probe. -/
structure FpsEnv where
  rtss : Except Unit ℚ
  winApi : Except Unit ℚ
  perfCtr : Except Unit ℚ
  directQ : Except Unit ℚ
  loadTemp : Except Unit ℚ
  attempted : ℕ
  cachedGpuLoad : Option ℚ
  cachedCpuUsage : Option ℚ
  gputil : Except Unit (Option GpuInfo)
  refresh : ℤ
  title : Option String
  activeGame : Option String
  procNames : List String
  hasQpc : Bool
  qpcOk : Bool
  qpcElapsed : ℚ

/-- Validity window of a candidate FPS value: `1 <= value <= 400`. -/
def inRange (v : ℚ) : Bool := decide (1 ≤ v ∧ v ≤ 400)

/-- Methods after the shared-memory reader, paired with their static
confidence weights. -/
def tailMethods (env : FpsEnv) : List (Except Unit ℚ × ℚ) :=
  [(env.winApi, 1), (env.perfCtr, 0.85), (env.directQ, 0.75), (env.loadTemp, 0.55)]

/-- Candidate collection over the non-authoritative methods: a raised
method contributes nothing, an out-of-range value contributes nothing,
an in-range value contributes (value, weight). -/
def collectCands (ms : List (Except Unit ℚ × ℚ)) : List (ℚ × ℚ) :=
  ms.filterMap (fun mw =>
    match mw.1 with
    | Except.ok v => if inRange v then some (v, mw.2) else none
    | Except.error _ => none)

/-- Estimator loop of get_fps: methods run in confidence order until the
budget is exhausted; a valid shared-memory value breaks the loop at once
and suppresses every candidate; other valid values are collected.
Returns (rtss value if any, collected candidates). -/
def runMethods (attempted : ℕ) (env : FpsEnv) : Option ℚ × List (ℚ × ℚ) :=
  match attempted with
  | 0 => (none, [])
  | n + 1 =>
    match env.rtss with
    | Except.ok v =>
      if inRange v then (some v, [])
      else (none, collectCands ((tailMethods env).take n))
    | Except.error _ => (none, collectCands ((tailMethods env).take n))

/-- Ascending insertion, matching Python list.sort() on the candidate
values. -/
def insertAsc (x : ℚ) : List ℚ → List ℚ
  | [] => [x]
  | y :: ys => if x ≤ y then x :: y :: ys else y :: insertAsc x ys

/-- Ascending sort of the candidate values. -/
def pySort (l : List ℚ) : List ℚ := l.foldr insertAsc []

/-- Non-authoritative fusion of the collected candidates: with more than
three candidates the values below the second-smallest or above the
second-largest are discarded, then a confidence-weighted average is
taken.  `none` models method_success remaining False (no candidate, or
zero total weight). -/
def fuseCandidates (cands : List (ℚ × ℚ)) : Option ℚ :=
  match cands with
  | [] => none
  | _ =>
    let values := pySort (cands.map Prod.fst)
    let filtered :=
      if 3 < values.length then
        let tmin := values.getD 1 0
        let tmax := values.getD (values.length - 2) 0
        cands.filter (fun vw => decide (tmin ≤ vw.1 ∧ vw.1 ≤ tmax))
      else cands
    let tw := (filtered.map Prod.snd).sum
    if 0 < tw then some (((filtered.map (fun vw => vw.1 * vw.2)).sum) / tw) else none

/-- Display cap used by get_fps: max(240, int(refresh * 1.50)) when the
refresh probe reports a positive rate, else 240. -/
def upperCap (refresh : ℤ) : ℚ :=
  if 0 < refresh then max 240 ((pyInt ((refresh : ℚ) * 1.50) : ℤ) : ℚ) else 240

/-- Refresh-rate-aware fallback estimate of the regular branch of
get_fps, used when every estimator failed: a piecewise mapping from GPU
load toward the cap, or 80 % of the cap when no load is known. -/
def fallbackEstimate (env : FpsEnv) : ℚ :=
  let cap := upperCap env.refresh
  let gl : Option ℚ :=
    match env.cachedGpuLoad with
    | some l => some (l / 100)
    | none =>
      match env.gputil with
      | Except.ok (some g) => some g.load
      | _ => none
  match gl with
  | some gl =>
    let r : ℚ :=
      if gl < 0.10 then max 20 ((pyInt (cap * 0.35) : ℤ) : ℚ)
      else if gl < 0.30 then ((pyInt (cap * (0.50 + gl * 0.4)) : ℤ) : ℚ)
      else if gl < 0.60 then ((pyInt (cap * (0.65 + (gl - 0.30) * 0.5)) : ℤ) : ℚ)
      else if gl < 0.85 then ((pyInt (cap * (0.80 + (gl - 0.60) * 0.4)) : ℤ) : ℚ)
      else ((pyInt (cap * (0.95 + (gl - 0.85) * 0.2)) : ℤ) : ℚ)
    min r cap
  | none => ((pyInt (cap * 0.80) : ℤ) : ℚ)

/-- Final refresh-rate cap of get_fps: applied only when the refresh
probe reports a positive rate and no shared-memory value took part. -/
def finalCap (refresh : ℤ) (rtssPresent : Bool) (raw : ℚ) : ℚ :=
  if 0 < refresh ∧ rtssPresent = false then min raw (upperCap refresh) else raw

/-- Aggregation stage of the regular (non-CF) branch of get_fps: run the
estimators, fuse, fall back, cap.  Returns the fused raw FPS of the
cycle and the authoritative-source flag. -/
def computeRawNonCf (attempted : ℕ) (env : FpsEnv) : ℚ × Bool :=
  let rc := runMethods attempted env
  let fused : Option ℚ :=
    match rc.1 with
    | some v => some v
    | none => fuseCandidates rc.2
  let raw :=
    match fused with
    | some f => f
    | none => fallbackEstimate env
  (finalCap env.refresh rc.1.isSome raw, rc.1.isSome)

/-- Simple GPU-load fallback of the CF branch of get_fps (20 fps under
10 % load, a 150x+25 ramp under 30 %, a 200x+10 ramp above). -/
def cfFallback (env : FpsEnv) : ℚ :=
  let gl : Option ℚ :=
    match env.cachedGpuLoad with
    | some l => some (l / 100)
    | none =>
      match env.gputil with
      | Except.ok (some g) => some g.load
      | _ => none
  match gl with
  | some gl =>
    if gl < 0.1 then 20
    else if gl < 0.3 then min 60 ((pyInt (gl * 150 + 25) : ℤ) : ℚ)
    else min 240 ((pyInt (gl * 200 + 10) : ℤ) : ℚ)
  | none => 30

/-!  CF (fast-response title) detection and estimator. -/

/-- CF window-title keywords of get_fps. -/
def CF_WINDOW_KEYWORDS : List String :=
  ["crossfire", "cf", "穿越火线", "cfhd", "cf战场", "cf爆破"]

/-- CF process names probed in the running-process check of get_fps. -/
def CF_PROCESSES : List String :=
  ["crossfire.exe", "cf.exe", "crossfire_launcher.exe", "crossfire_x.exe", "client.exe"]

/-- CF detection step 1: the active window title contains a CF
keyword. -/
def cfFromTitle (env : FpsEnv) : Bool :=
  match env.title with
  | some t => !t.data.isEmpty && CF_WINDOW_KEYWORDS.any (fun kw => containsSubstr (pyLower t) kw)
  | none => false

/-- CF detection step 2: the active game process name contains
"crossfire" or "cf". -/
def cfFromActive (env : FpsEnv) : Bool :=
  match env.activeGame with
  | some g => !g.data.isEmpty && (["crossfire", "cf"] : List String).any (fun kw => containsSubstr (pyLower g) kw)
  | none => false

/-- CF detection step 3: a CF process name appears in the running
process list. -/
def cfFromProcs (env : FpsEnv) : Bool :=
  env.procNames.any (fun n => CF_PROCESSES.contains (pyLower n))

/-- CF game detection of get_fps (three probes in order). -/
def isCfGame (env : FpsEnv) : Bool :=
  cfFromTitle env || cfFromActive env || cfFromProcs env

/-- CF cap: max(120, int(refresh * 1.15)) for a positive reported rate,
else 120. -/
def cfCap (refresh : ℤ) : ℤ :=
  if 0 < refresh then max 120 (pyInt ((refresh : ℚ) * 1.15)) else 120

/-- CF-specific estimator _get_cf_specific_fps: refresh-anchored
piecewise mapping of an approximate GPU load (cached load, else GPUtil,
else 1.2x the cached CPU usage, else 50), with a memory-pressure
correction and a floor of 30. -/
def cfSpecificFps (env : FpsEnv) : ℤ :=
  let glA : Option ℚ :=
    match env.cachedGpuLoad with
    | some l => some (max 0 (min 100 l))
    | none => none
  let glB : Option ℚ × ℚ :=
    match glA with
    | some l => (some l, 0)
    | none =>
      match env.gputil with
      | Except.ok (some g) =>
        (some (g.load * 100),
          if 0 < g.memoryTotal then g.memoryUsed / g.memoryTotal * 100 else 0)
      | _ => (none, 0)
  let memPct := glB.2
  let glC : ℚ :=
    match glB.1 with
    | some l => l
    | none =>
      match env.cachedCpuUsage with
      | some c => max 0 (min 100 (c * 1.2))
      | none => 50
  let cap := cfCap env.refresh
  let g := glC / 100
  let f0 : ℤ :=
    if g < 0.10 then max 40 (pyInt ((cap : ℚ) * 0.55))
    else if g < 0.30 then pyInt ((cap : ℚ) * (0.65 + g * 0.35))
    else if g < 0.60 then pyInt ((cap : ℚ) * (0.78 + (g - 0.30) * 0.45))
    else if g < 0.85 then pyInt ((cap : ℚ) * (0.90 + (g - 0.60) * 0.35))
    else pyInt ((cap : ℚ) * (0.98 + (g - 0.85) * 0.15))
  let f1 := min f0 cap
  let f2 : ℤ :=
    if 90 < memPct then pyInt ((f1 : ℚ) * 0.90)
    else if 80 < memPct then pyInt ((f1 : ℚ) * 0.95)
    else if 0 < memPct ∧ memPct < 30 then pyInt ((f1 : ℚ) * 1.05)
    else f1
  max 30 f2

/-- Per-game additive FPS offsets (game_specific_fps_offsets), in the
insertion order of the source dict. -/
def gameOffsets : List (String × ℚ) :=
  [("FortniteClient-Win64-Shipping.exe", 5), ("Fortnite.exe", 5),
   ("ApexLegends.exe", -3), ("Apex.exe", -3), ("TslGame.exe", 2),
   ("battlefield2042.exe", -1), ("StarWarsSquadrons.exe", 3),
   ("Overwatch.exe", 4), ("Overwatch2.exe", 3), ("Wow.exe", 2), ("WowClassic.exe", 3),
   ("LeagueClient.exe", 8), ("League of Legends.exe", 6), ("VALORANT.exe", 2),
   ("csgo.exe", -2), ("cs2.exe", 0), ("dota2.exe", 1),
   ("GTA5.exe", 3), ("Cyberpunk2077.exe", 1), ("EldenRing.exe", -2),
   ("CallofDuty.exe", 0), ("ModernWarfare.exe", 1), ("ModernWarfare2.exe", -1),
   ("ModernWarfare3.exe", -2), ("Warzone.exe", 2), ("Warzone2.exe", 0),
   ("eldenring.exe", -2), ("ResidentEvil4.exe", 2), ("godofwar.exe", -1),
   ("minecraft.exe", 5), ("palworld.exe", -3), ("helldivers2.exe", 1),
   ("baldursgate3.exe", -2), ("bg3.exe", -2), ("DiabloIV.exe", -1), ("Diablo4.exe", -1)]

/-- Game-specific correction of get_fps: exact dict lookup first, then
the first partial match of a lowercased base name inside the lowercased
active game name; the corrected value is floored at 1. -/
def applyOffsets (raw : ℚ) (activeGame : String) : ℚ :=
  let r : ℚ :=
    match gameOffsets.find? (fun kv => kv.1 = activeGame) with
    | some kv => raw + kv.2
    | none =>
      match gameOffsets.find? (fun kv =>
          containsSubstr (pyLower activeGame) (pyReplace (pyLower kv.1) (".exe") (""))) with
      | some kv => raw + kv.2
      | none => raw
  max 1 r

/-!  Smoothing and outlier filter (real-valued: the recency weights use
the real power 1.3). -/

/-- Python `round()` (banker's rounding, half to even). -/
noncomputable def pyRound (x : ℝ) : ℤ :=
  if x - ⌊x⌋ < 1 / 2 then ⌊x⌋
  else if 1 / 2 < x - ⌊x⌋ then ⌊x⌋ + 1
  else if Even ⌊x⌋ then ⌊x⌋ else ⌊x⌋ + 1

/-- Recency weights [(i+1) ** 1.3 for i in range(n)]. -/
noncomputable def pyWeights (n : ℕ) : List ℝ :=
  (List.range n).map (fun i => ((i + 1 : ℕ) : ℝ) ^ (1.3 : ℝ))

/-- Sum of pairwise products, as Python
sum(x * w for x, w in zip(xs, ws)). -/
def dotList (xs ws : List ℝ) : ℝ :=
  ((xs.zip ws).map (fun p => p.1 * p.2)).sum

/-- Python slice l[-6:-3] for a list of length at least 6 (the only use
site guards length > 5). -/
def midSlice (l : List ℝ) : List ℝ := (l.drop (l.length - 6)).take 3

/-- History after outlier handling, append and window trim (steps 1-3 of
_smooth_fps_value): a value deviating more than 60 % from the recent
3-sample average and more than 70 % from the preceding window is pulled
40 % of the way from the recent average before being appended; the
oldest entry is dropped when the window size is exceeded. -/
noncomputable def smoothHistAppend (hist : List ℝ) (window : ℕ) (cur : ℝ) : List ℝ :=
  let isOutlier : Prop :=
    3 < hist.length ∧
      |cur - (takeLast 3 hist).sum / 3| > (takeLast 3 hist).sum / 3 * 0.6 ∧
      5 < hist.length ∧
      |cur - (midSlice hist).sum / 3| > (midSlice hist).sum / 3 * 0.7
  let h1 :=
    if isOutlier then
      if hist.isEmpty then hist ++ [cur]
      else
        let ra := if 3 ≤ hist.length then (takeLast 3 hist).sum / 3 else hist.getLastD 0
        hist ++ [ra + (cur - ra) * 0.4]
    else hist ++ [cur]
  if window < h1.length then h1.tail else h1

/-- Recency-weighted average over a history. -/
noncomputable def recencyAvg (l : List ℝ) : ℝ :=
  dotList l (pyWeights l.length) / (pyWeights l.length).sum

/-- General smoothing profile _smooth_fps_value: light 0.2/0.8 blending
for an authoritative (RTSS) source, otherwise outlier-filtered history,
recency-weighted average and an asymmetric rate limiter anchored at the
recency-weighted average of the history without its newest entry.
Returns the displayed value and the updated history. -/
noncomputable def smoothFps (lastRtss : Bool) (fpsCache : ℤ) (hist : List ℝ) (window : ℕ)
    (cur : ℝ) : ℝ × List ℝ :=
  if lastRtss then
    if 0 < fpsCache then ((fpsCache : ℝ) * 0.20 + cur * 0.80, hist) else (cur, hist)
  else
    let h2 := smoothHistAppend hist window cur
    if h2.length = 0 then (cur, h2)
    else
      let ws := pyWeights h2.length
      if ws.sum = 0 then (cur, h2)
      else
        let wavg := dotList h2 ws / ws.sum
        if 1 < h2.length then
          let trend := h2.getLastD 0 - h2.getD (h2.length - 2) 0
          let pws := pyWeights (h2.length - 1)
          let pavg := if 0 < pws.sum then dotList h2.dropLast pws / pws.sum else cur
          let mc :=
            if 0 < trend then max 10 (pavg * 0.20 * 1.15)
            else if trend < 0 then max 10 (pavg * 0.20 * 1.25)
            else max 10 (pavg * 0.20)
          let final :=
            if mc < |wavg - pavg| then
              if pavg < wavg then pavg + mc else pavg - mc
            else wavg
          (final, h2)
        else (wavg, h2)

/-- CF smoothing profile _smooth_cf_fps_value: 3-sample window, fixed
steep weights [0.15, 0.30, 0.55] and a 30 % rate limiter. -/
noncomputable def smoothCf (lastRtss : Bool) (fpsCache : ℤ) (cfHist : List ℝ) (cur : ℝ) :
    ℝ × List ℝ :=
  if lastRtss then
    if 0 < fpsCache then ((fpsCache : ℝ) * 0.20 + cur * 0.80, cfHist) else (cur, cfHist)
  else
    let h1 := cfHist ++ [cur]
    let h2 := if 3 < h1.length then h1.tail else h1
    let ws : List ℝ := takeLast h2.length [0.15, 0.30, 0.55]
    if ws.sum = 0 ∨ h2.length = 0 then (cur, h2)
    else
      let wavg := dotList h2 ws / ws.sum
      if 1 < h2.length then
        let pws := if 1 < ws.length then ws.dropLast else [1]
        let pavg := if 0 < pws.sum then dotList h2.dropLast pws / pws.sum else cur
        let mc := max 10 (pavg * 0.3)
        let final :=
          if mc < |wavg - pavg| then
            if pavg < wavg then pavg + mc else pavg - mc
          else wavg
        (final, h2)
      else (wavg, h2)

/-!  The full get_fps pipeline. -/

/-- Mutable attributes of SystemInfoWorker used by get_fps:
fps_history and _cf_fps_history (smoothing state), frame_time_history,
fps_cache, last_fps_timestamp, _last_history_update,
_last_source_rtss, _last_counter_time and the smoothing window size
fps_smoothing_window (8). -/
structure FpsState where
  fpsHistory : List ℝ
  cfFpsHistory : List ℝ
  frameTimeHistory : List ℚ
  fpsCache : ℤ
  lastFpsTimestamp : ℚ
  lastHistoryUpdate : Option ℚ
  lastSourceRtss : Bool
  lastCounterTime : Option ℚ
  window : ℕ

/-- Frame-time bookkeeping of get_fps: when QueryPerformanceCounter is
available and due (no earlier read, or more than 0.2 s old), a
successful read appends the elapsed milliseconds (when above 1 ms) and
trims the buffer to the smoothing window. -/
def updateFrameTimes (env : FpsEnv) (st : FpsState) (now : ℚ) : FpsState :=
  if env.hasQpc = true ∧ (st.lastCounterTime = none ∨ 0.2 < now - st.lastCounterTime.getD 0) then
    if env.qpcOk then
      let st1 :=
        if 0.001 < env.qpcElapsed then
          let h := st.frameTimeHistory ++ [env.qpcElapsed * 1000]
          { st with frameTimeHistory := if st.window < h.length then h.tail else h }
        else st
      { st1 with lastCounterTime := some now }
    else st
  else st

/-- Frame-time blending of get_fps: with more than three recorded frame
times and a non-authoritative source, the FPS implied by the last three
frame times is blended in at 5 % weight when it is in range. -/
def blendFrameTimes (raw : ℚ) (frameTimes : List ℚ) (srcRtss : Bool) : ℚ :=
  if 3 < frameTimes.length ∧ srcRtss = false then
    let l3 := frameTimes.drop (frameTimes.length - 3)
    let avg := l3.sum / 3
    if 0 < avg then
      if inRange (1000 / avg) then raw * 0.95 + 1000 / avg * 0.05 else raw
    else raw
  else raw

/-- Body of get_fps past the validity cache (the code inside the big
try), for one estimation cycle: CF-specific or general aggregation,
frame-time bookkeeping and blending, game-specific offsets, smoothing,
cache update. -/
noncomputable def getFpsCore (env : FpsEnv) (st : FpsState) (cf : Bool) (now : ℚ) :
    ℤ × FpsState :=
  let agg : ℚ × Bool :=
    if cf then
      let c := cfSpecificFps env
      if inRange (c : ℚ) then ((c : ℚ), false)
      else
        let rc := runMethods env.attempted env
        let fused : Option ℚ :=
          match rc.1 with
          | some v => some v
          | none => fuseCandidates rc.2
        let raw :=
          match fused with
          | some f => f
          | none => cfFallback env
        (finalCap env.refresh rc.1.isSome raw, rc.1.isSome)
    else computeRawNonCf env.attempted env
  let srcRtss := agg.2
  let stQ := updateFrameTimes env st now
  let raw1 := blendFrameTimes agg.1 stQ.frameTimeHistory srcRtss
  let raw2 :=
    if cf = false ∧ pyTruthy env.activeGame then applyOffsets raw1 (env.activeGame.getD (""))
    else raw1
  let raw3 := raw2 * 1
  let sm : ℝ × List ℝ :=
    if cf then smoothCf srcRtss st.fpsCache stQ.cfFpsHistory ((raw3 : ℚ) : ℝ)
    else smoothFps srcRtss st.fpsCache stQ.fpsHistory st.window ((raw3 : ℚ) : ℝ)
  let cache := pyRound sm.1
  (cache,
    { stQ with
      fpsCache := cache
      lastFpsTimestamp := now
      lastSourceRtss := srcRtss
      fpsHistory := if cf then stQ.fpsHistory else sm.2
      cfFpsHistory := if cf then sm.2 else stQ.cfFpsHistory })

/-- get_fps: outside the gaming state the histories are cleared and 0 is
returned; otherwise CF detection, the short-lived value cache (0.1 s for
CF, 0.2 s otherwise, with opportunistic history feeding) and the
estimation cycle body. -/
noncomputable def getFps (env : FpsEnv) (st : FpsState) (isGaming : Bool) (now : ℚ) :
    ℤ × FpsState :=
  if isGaming = false then
    (0, { st with fpsHistory := [], frameTimeHistory := [] })
  else
    let cf := isCfGame env
    if cf then
      if now - st.lastFpsTimestamp < 0.1 ∧ 0 < st.fpsCache then (st.fpsCache, st)
      else getFpsCore env st cf now
    else
      if now - st.lastFpsTimestamp < 0.2 ∧ 0 < st.fpsCache then
        let st1 :=
          if st.lastHistoryUpdate = none ∨ 0.3 < now - st.lastHistoryUpdate.getD 0 then
            let h := st.fpsHistory ++ [((st.fpsCache : ℚ) : ℝ)]
            { st with
              fpsHistory := if st.window < h.length then h.tail else h
              lastHistoryUpdate := some now }
          else st
        (st1.fpsCache, st1)
      else getFpsCore env st cf now
section
/-- C4: with the five equally weighted in-range candidates
[30, 32, 35, 38, 200] and no authoritative value, the fusion step
discards 30 and 200 and averages the rest, giving 35, which is below
40. -/
theorem trimmed_mean_example :
    fuseCandidates [(30, 1), (32, 1), (35, 1), (38, 1), (200, 1)] = some 35 ∧ (35 : ℚ) < 40 := by
  constructor
  · norm_num [fuseCandidates, pySort, insertAsc, List.getD]
  · norm_num

/-- C2: whenever the shared-memory estimator yields an in-range value
and the loop examines at least one method, the fused raw FPS is exactly
that value and the authoritative flag is set, whatever every other
estimator would have returned. -/
theorem rtss_exclusive_fusion (n : ℕ) (env : FpsEnv) (v : ℚ)
    (hr : env.rtss = Except.ok v) (hv : inRange v = true) :
    computeRawNonCf (n + 1) env = (v, true) := by
  simp [computeRawNonCf, runMethods, hr, hv, finalCap]

/-- Concrete cycle for the witness of rtss_exclusive_fusion: the
shared-memory reader says 144 while every other estimator says 30. -/
def envRtss : FpsEnv :=
  { rtss := Except.ok 144, winApi := Except.ok 30, perfCtr := Except.ok 30,
    directQ := Except.ok 30, loadTemp := Except.ok 30, attempted := 5,
    cachedGpuLoad := some 50, cachedCpuUsage := none, gputil := Except.error (),
    refresh := 60, title := none, activeGame := none, procNames := [],
    hasQpc := false, qpcOk := false, qpcElapsed := 0 }

/-- Witness for rtss_exclusive_fusion. -/
theorem rtss_exclusive_fusion_witness :
    envRtss.rtss = Except.ok 144 ∧ inRange (144 : ℚ) = true ∧
      computeRawNonCf 5 envRtss = (144, true) := by
  refine ⟨rfl, ?_, ?_⟩
  · norm_num [inRange]
  · exact rtss_exclusive_fusion 4 envRtss 144 rfl (by norm_num [inRange])

/-- C8: under an authoritative (RTSS) source with a positive cached
value, the smoothing step is exactly displayed = 0.2 * previous +
0.8 * raw. -/
theorem authoritative_smoothing_formula (c : ℤ) (hist : List ℝ) (w : ℕ) (cur : ℝ)
    (hc : 0 < c) :
    (smoothFps true c hist w cur).1 = 0.2 * (c : ℝ) + 0.8 * cur := by
  simp [smoothFps, hc]
  ring

/-- Witness for authoritative_smoothing_formula at previous = 100 and
raw = 50. -/
theorem authoritative_smoothing_formula_witness :
    (0 : ℤ) < 100 ∧ (smoothFps true 100 [] 8 50).1 = 0.2 * ((100 : ℤ) : ℝ) + 0.8 * 50 :=
  ⟨by norm_num, authoritative_smoothing_formula 100 [] 8 50 (by norm_num)⟩

/-- C10: a call of get_fps outside the gaming state returns 0 and clears
the FPS history and the frame-time history. -/
theorem not_gaming_returns_zero_and_clears (env : FpsEnv) (st : FpsState) (now : ℚ) :
    getFps env st false now = (0, { st with fpsHistory := [], frameTimeHistory := [] }) := by
  simp [getFps]
end
section
/-- Concrete cycle for the C1 counterexample and witness: a 60 Hz
display, no shared-memory value, and a single in-range candidate of 200
from the performance-counter estimator. -/
def envCap : FpsEnv :=
  { rtss := Except.error (), winApi := Except.ok 200, perfCtr := Except.error (),
    directQ := Except.error (), loadTemp := Except.error (), attempted := 5,
    cachedGpuLoad := some 50, cachedCpuUsage := none, gputil := Except.error (),
    refresh := 60, title := none, activeGame := none, procNames := [],
    hasQpc := false, qpcOk := false, qpcElapsed := 0 }

/-- Estimator-loop outcome of the envCap cycle. -/
theorem envCap_run : runMethods 5 envCap = (none, [(200, 1)]) := by
  norm_num [runMethods, envCap, collectCands, tailMethods, inRange, List.filterMap_cons]

/-- Cap value at 60 Hz: max(240, int(60 * 1.5)) = 240. -/
theorem upperCap_60 : upperCap 60 = 240 := by
  norm_num [upperCap, pyInt]

/-- C1 refuted as stated: on a 60 Hz display with no authoritative
value, the fused raw FPS of the cycle described by envCap is 200, which
exceeds 1.5 x 60 = 90 (the code caps at max(240, 1.5 x refresh), not at
1.5 x refresh). -/
theorem refresh_cap_claim_counterexample :
    envCap.refresh = 60 ∧ (computeRawNonCf 5 envCap).2 = false ∧
      (computeRawNonCf 5 envCap).1 = 200 ∧ ¬ ((computeRawNonCf 5 envCap).1 ≤ 90) := by
  have hfuse : fuseCandidates [(200, 1)] = some 200 := by
    norm_num [fuseCandidates, pySort, insertAsc]
  have h1 : computeRawNonCf 5 envCap = (200, false) := by
    have hcap : (envCap.refresh : ℤ) = 60 := rfl
    simp only [computeRawNonCf, envCap_run, hfuse, Option.isSome_none, finalCap, hcap]
    norm_num [upperCap_60]
  refine ⟨rfl, ?_, ?_, ?_⟩ <;> rw [h1]
  norm_num

/-- C1 amended: whenever the cycle used no authoritative value and the
display reports a positive refresh rate, the fused raw FPS is bounded by
max(240, int(1.5 x refresh)); in particular the bound for a 60 Hz
display is 240, not 90. -/
theorem fused_raw_le_cap_of_not_authoritative (attempted : ℕ) (env : FpsEnv)
    (hna : (computeRawNonCf attempted env).2 = false) (hr : 0 < env.refresh) :
    (computeRawNonCf attempted env).1 ≤ upperCap env.refresh := by
  cases hrv : (runMethods attempted env).1 with
  | some v => simp [computeRawNonCf, hrv] at hna
  | none =>
    have hcap : (computeRawNonCf attempted env).1 =
        min (match fuseCandidates (runMethods attempted env).2 with
              | some f => f
              | none => fallbackEstimate env) (upperCap env.refresh) := by
      simp [computeRawNonCf, hrv, finalCap, hr]
    rw [hcap]
    exact min_le_right _ _

/-- Witness for fused_raw_le_cap_of_not_authoritative on the envCap
cycle. -/
theorem fused_raw_le_cap_witness :
    (computeRawNonCf 5 envCap).2 = false ∧ (0 : ℤ) < envCap.refresh ∧
      (computeRawNonCf 5 envCap).1 ≤ upperCap envCap.refresh := by
  have h1 : (computeRawNonCf 5 envCap).2 = false := by
    simp [computeRawNonCf, envCap_run]
  have h2 : (0 : ℤ) < envCap.refresh := by norm_num [envCap]
  exact ⟨h1, h2, fused_raw_le_cap_of_not_authoritative 5 envCap h1 h2⟩
end
section
/-- When the hysteresis cache does not apply, detect_gaming runs its
decision body. -/
theorem detectGaming_of_noCacheHit (cfg : Config) (env : DetectEnv) (st : DetectState)
    (now : ℚ) (hmiss : noCacheHit st now) :
    detectGaming cfg env st now = detectGamingCore cfg env st now := by
  rcases hld : st.lastDetection with _ | ⟨b, t⟩
  · simp [detectGaming, hld]
  · simp only [noCacheHit, hld] at hmiss
    cases b
    · simp [detectGaming, hld, not_lt.mpr (hmiss.2 rfl)]
    · simp [detectGaming, hld, not_lt.mpr (hmiss.1 rfl)]

/-- Every branch of the decision body records its result in the
hysteresis cache with the current time stamp. -/
theorem detectGamingCore_stores (cfg : Config) (env : DetectEnv) (st : DetectState)
    (now : ℚ) :
    (detectGamingCore cfg env st now).2.lastDetection =
      some ((detectGamingCore cfg env st now).1, now) := by
  unfold detectGamingCore
  repeat' split
  all_goals rcases htk : titleKeywordPhase (refreshTitle env st now).1 with _ | b <;> simp [recordResult, htk]

/-- After any detect_gaming call the hysteresis cache holds the returned
result (cache hits keep their original time stamp, fresh decisions store
the current time). -/
theorem detectGaming_stores (cfg : Config) (env : DetectEnv) (st : DetectState)
    (now : ℚ) :
    ∃ t', (detectGaming cfg env st now).2.lastDetection =
      some ((detectGaming cfg env st now).1, t') := by
  rcases hld : st.lastDetection with _ | ⟨b, t⟩
  · exact ⟨now, by simp [detectGaming, hld, detectGamingCore_stores]⟩
  · by_cases h1 : b = true ∧ now - t < 0.5
    · refine ⟨t, ?_⟩
      simp [detectGaming, hld, h1]
    · by_cases h2 : b = false ∧ now - t < 0.2
      · refine ⟨t, ?_⟩
        simp [detectGaming, hld, h1, h2]
      · refine ⟨now, ?_⟩
        simp [detectGaming, hld, h1, h2, detectGamingCore_stores]
end
section
/-- C3: with a cached GPU load present (of any value) and no live cache
hit, a foreground process in the non-game denylist (static set united
with user extensions) forces a negative classification. -/
theorem denylist_forces_not_gaming (cfg : Config) (env : DetectEnv) (st : DetectState)
    (now load : ℚ) (hmiss : noCacheHit st now) (hload : env.gpuLoad = some load)
    (hname : pyTruthy (fgResolved env) = true)
    (hmem : (fgResolved env).getD ("") ∈ NON_GAME_PROCESSES ++ cfg.customProcs) :
    (detectGaming cfg env st now).1 = false := by
  have hdeny : denyMatch cfg env = true := by
    have hmem2 : (fgResolved env).getD ("") ∈ combinedProcs cfg :=
      List.mem_append_left _ hmem
    have hc : (combinedProcs cfg).contains ((fgResolved env).getD ("")) = true := by
      simpa using hmem2
    unfold denyMatch
    rw [hname, hc]
    rfl
  have hg : gpuPhase cfg env = some false := by
    unfold gpuPhase
    simp [hload, hdeny]
  rw [detectGaming_of_noCacheHit cfg env st now hmiss]
  simp [detectGamingCore, hg, recordResult]

/-- Default registry configuration: strict non-game-fullscreen handling
and no user-extended entries. -/
def cfgDefault : Config := { strict := true, customProcs := [], customTitles := [] }

/-- Probe snapshot with chrome.exe in the foreground, fullscreen, and a
cached GPU load of 95 %. -/
def envChrome : DetectEnv :=
  { gpuLoad := some 95, fullscreen := true, fgWin32 := Except.ok (some ("Chrome.exe")),
    fgCtypes := none, title := some (""), gpus := Except.ok none, procs := [] }

/-- Witness for denylist_forces_not_gaming: fullscreen chrome.exe at
95 % GPU load classifies as not gaming. -/
theorem denylist_forces_not_gaming_witness :
    pyTruthy (fgResolved envChrome) = true ∧
      (fgResolved envChrome).getD ("") ∈ NON_GAME_PROCESSES ++ cfgDefault.customProcs ∧
      (detectGaming cfgDefault envChrome ⟨none, none, 0⟩ 100).1 = false := by
  have h1 : pyTruthy (fgResolved envChrome) = true := by decide
  have h2 : (fgResolved envChrome).getD ("") ∈ NON_GAME_PROCESSES ++ cfgDefault.customProcs := by
    decide
  exact ⟨h1, h2, denylist_forces_not_gaming cfgDefault envChrome ⟨none, none, 0⟩ 100 95
    trivial rfl h1 h2⟩

/-- Probe snapshot with chrome.exe in the foreground, not fullscreen,
and a cached GPU load of 40 %. -/
def envChromeWin : DetectEnv :=
  { gpuLoad := some 40, fullscreen := false, fgWin32 := Except.ok (some ("chrome.exe")),
    fgCtypes := none, title := some (""), gpus := Except.ok none, procs := [] }

/-- C7 refuted as stated: a foreground context that is not a non-game
fullscreen case (chrome.exe windowed) with cached GPU load 40 >= 35
still classifies as not gaming, because the denylist rule precedes the
35 % rule. -/
theorem gpu35_claim_counterexample :
    envChromeWin.fullscreen = false ∧ envChromeWin.gpuLoad = some 40 ∧
      nonGameFullscreen cfgDefault envChromeWin = false ∧
      (detectGaming cfgDefault envChromeWin ⟨none, none, 0⟩ 100).1 = false := by
  refine ⟨rfl, rfl, ?_, ?_⟩
  · decide
  · decide

/-- C7 amended: when additionally the foreground matches neither the
combined non-game process set nor the combined non-game title keywords,
a cached GPU load of at least 35 % (with no live cache hit) forces a
positive classification. -/
theorem gpu35_guarded_implies_gaming (cfg : Config) (env : DetectEnv) (st : DetectState)
    (now load : ℚ) (hmiss : noCacheHit st now) (hload : env.gpuLoad = some load)
    (h35 : 35 ≤ load) (hdeny : denyMatch cfg env = false) :
    (detectGaming cfg env st now).1 = true := by
  have hg : gpuPhase cfg env = some true := by
    unfold gpuPhase
    simp [hload, hdeny, nonGameFullscreen, h35]
  rw [detectGaming_of_noCacheHit cfg env st now hmiss]
  simp [detectGamingCore, hg, recordResult]

/-- Probe snapshot with an unknown foreground process, not fullscreen,
and a cached GPU load of 40 %. -/
def envUnknown : DetectEnv :=
  { gpuLoad := some 40, fullscreen := false,
    fgWin32 := Except.ok (some ("SomeUnknownGame.exe")),
    fgCtypes := none, title := some (""), gpus := Except.ok none, procs := [] }

/-- Witness for gpu35_guarded_implies_gaming: an unknown foreground
process at 40 % GPU load, not fullscreen, classifies as gaming. -/
theorem gpu35_guarded_implies_gaming_witness :
    (35 : ℚ) ≤ 40 ∧ denyMatch cfgDefault envUnknown = false ∧
      (detectGaming cfgDefault envUnknown ⟨none, none, 0⟩ 100).1 = true := by
  have h35 : (35 : ℚ) ≤ 40 := by norm_num
  have hdeny : denyMatch cfgDefault envUnknown = false := by decide
  exact ⟨h35, hdeny, gpu35_guarded_implies_gaming cfgDefault envUnknown ⟨none, none, 0⟩ 100 40
    trivial rfl h35 hdeny⟩

/-- C6: when a second detect_gaming call lands inside the hysteresis
window of the recorded first result (under 0.5 s for a positive result,
under 0.2 s for a negative one), it returns the same result as the
first call. -/
theorem detect_gaming_idempotent_within_window (cfg : Config) (env : DetectEnv)
    (st : DetectState) (t1 t2 : ℚ)
    (hwin : ((detectGaming cfg env st t1).1 = true →
        t2 - decisionTime (detectGaming cfg env st t1).2 < 0.5) ∧
      ((detectGaming cfg env st t1).1 = false →
        t2 - decisionTime (detectGaming cfg env st t1).2 < 0.2)) :
    (detectGaming cfg env (detectGaming cfg env st t1).2 t2).1 =
      (detectGaming cfg env st t1).1 := by
  obtain ⟨t', hst⟩ := detectGaming_stores cfg env st t1
  have hdt : decisionTime (detectGaming cfg env st t1).2 = t' := by
    simp [decisionTime, hst]
  cases hb : (detectGaming cfg env st t1).1 with
  | true =>
    have hw := hwin.1 hb
    rw [hdt] at hw
    rw [hb] at hst
    set s1 := (detectGaming cfg env st t1).2 with hs1
    simp [detectGaming, hst, hw]
  | false =>
    have hw := hwin.2 hb
    rw [hdt] at hw
    rw [hb] at hst
    set s1 := (detectGaming cfg env st t1).2 with hs1
    simp [detectGaming, hst, hw]

/-- Probe snapshot with an anonymous foreground and a cached GPU load of
95 %, classifying as gaming. -/
def envHot : DetectEnv :=
  { gpuLoad := some 95, fullscreen := false, fgWin32 := Except.ok none,
    fgCtypes := none, title := none, gpus := Except.ok none, procs := [] }

/-- Witness for detect_gaming_idempotent_within_window: a second call
0.1 s after a fresh positive decision returns the same result. -/
theorem detect_gaming_idempotent_witness :
    (((detectGaming cfgDefault envHot ⟨none, none, 0⟩ 0).1 = true →
        (1 / 10 : ℚ) - decisionTime (detectGaming cfgDefault envHot ⟨none, none, 0⟩ 0).2 < 0.5) ∧
      ((detectGaming cfgDefault envHot ⟨none, none, 0⟩ 0).1 = false →
        (1 / 10 : ℚ) - decisionTime (detectGaming cfgDefault envHot ⟨none, none, 0⟩ 0).2 < 0.2)) ∧
    (detectGaming cfgDefault envHot (detectGaming cfgDefault envHot ⟨none, none, 0⟩ 0).2
        (1 / 10)).1 =
      (detectGaming cfgDefault envHot ⟨none, none, 0⟩ 0).1 := by
  have hres : (detectGaming cfgDefault envHot ⟨none, none, 0⟩ 0).1 = true := by decide
  have hdt : decisionTime (detectGaming cfgDefault envHot ⟨none, none, 0⟩ 0).2 = 0 := by decide
  have hwin : ((detectGaming cfgDefault envHot ⟨none, none, 0⟩ 0).1 = true →
        (1 / 10 : ℚ) - decisionTime (detectGaming cfgDefault envHot ⟨none, none, 0⟩ 0).2 < 0.5) ∧
      ((detectGaming cfgDefault envHot ⟨none, none, 0⟩ 0).1 = false →
        (1 / 10 : ℚ) - decisionTime (detectGaming cfgDefault envHot ⟨none, none, 0⟩ 0).2 < 0.2) := by
    constructor
    · intro _
      rw [hdt]
      norm_num
    · intro hf
      exact absurd hf (by simp [hres])
  exact ⟨hwin, detect_gaming_idempotent_within_window cfgDefault envHot ⟨none, none, 0⟩ 0
    (1 / 10) hwin⟩
end
section
/-- When every estimator raises, the loop yields no authoritative value
and no candidates, however many methods the budget allows. -/
theorem runMethods_all_fail (k : ℕ) (env : FpsEnv)
    (h1 : env.rtss = Except.error ()) (h2 : env.winApi = Except.error ())
    (h3 : env.perfCtr = Except.error ()) (h4 : env.directQ = Except.error ())
    (h5 : env.loadTemp = Except.error ()) :
    runMethods k env = (none, []) := by
  cases k with
  | zero => rfl
  | succ n =>
    simp only [runMethods, h1]
    congr 1
    rw [collectCands, List.filterMap_eq_nil_iff]
    intro mw hmw
    have hmem : mw ∈ tailMethods env := List.take_subset n _ hmw
    simp [tailMethods, h2, h3, h4, h5] at hmem
    rcases hmem with h | h | h | h <;> simp [h]

/-- Recency weight list of length one. -/
theorem pyWeights_one : pyWeights 1 = [1] := by
  rw [pyWeights, show List.range 1 = [0] from rfl]
  simp [Real.one_rpow]

/-- General smoothing from an empty history returns its input. -/
theorem smoothFps_empty (c : ℤ) (w : ℕ) (x : ℝ) :
    (smoothFps false c [] w x).1 = x := by
  by_cases hw : w = 0
  · subst hw
    simp [smoothFps, smoothHistAppend]
  · have hw1 : ¬ (w < 1) := by omega
    simp [smoothFps, smoothHistAppend, hw1, pyWeights_one, dotList]

/-- Probe snapshot in which every classifier probe fails or yields
nothing. -/
def envProbesDown : DetectEnv :=
  { gpuLoad := none, fullscreen := false, fgWin32 := Except.error (),
    fgCtypes := none, title := none, gpus := Except.error (), procs := [] }

/-- With every probe failing (and no live caches), detect_gaming settles
on false rather than raising. -/
theorem detect_probesDown (cfg : Config) (st : DetectState) (now : ℚ)
    (hmiss : noCacheHit st now) (hct : st.cachedTitle = none) :
    (detectGaming cfg envProbesDown st now).1 = false := by
  rw [detectGaming_of_noCacheHit _ _ _ _ hmiss]
  have hr1 : (refreshTitle envProbesDown st now).1 = none := by
    simp [refreshTitle, hct, envProbesDown]
  have hrp : runningProcsPhase envProbesDown = none := by decide
  have hg : gpuPhase cfg envProbesDown = none := rfl
  have hfg : fgGamePhase envProbesDown = none := rfl
  have hhc : highCpuPhase envProbesDown = none := rfl
  have hgp : gpuPatternPhase envProbesDown = none := rfl
  simp [detectGamingCore, hg, hr1, hfg, hhc, hgp, hrp, titleKeywordPhase, recordResult]

/-- C9: neither classification nor FPS estimation propagates a failure:
a cycle in which every estimator raises returns the (capped)
refresh-rate-derived fallback value from get_fps, and a classifier call
in which every probe fails returns false. -/
theorem no_exception_total_failure_fallback (env : FpsEnv) (st : FpsState) (now : ℚ)
    (h1 : env.rtss = Except.error ()) (h2 : env.winApi = Except.error ())
    (h3 : env.perfCtr = Except.error ()) (h4 : env.directQ = Except.error ())
    (h5 : env.loadTemp = Except.error ()) (hcf : isCfGame env = false)
    (hag : env.activeGame = none) (hqpc : env.hasQpc = false)
    (hcache : st.fpsCache ≤ 0) (hhist : st.fpsHistory = [])
    (hft : st.frameTimeHistory = []) :
    (getFps env st true now).1 =
        pyRound ((finalCap env.refresh false (fallbackEstimate env) : ℚ) : ℝ) ∧
      ∀ (cfg : Config) (dst : DetectState) (dnow : ℚ), noCacheHit dst dnow →
        dst.cachedTitle = none → (detectGaming cfg envProbesDown dst dnow).1 = false := by
  constructor
  · have hrun : runMethods env.attempted env = (none, []) :=
      runMethods_all_fail _ env h1 h2 h3 h4 h5
    have hagg : computeRawNonCf env.attempted env =
        (finalCap env.refresh false (fallbackEstimate env), false) := by
      simp [computeRawNonCf, hrun, fuseCandidates]
    have hnotcache : ¬ (now - st.lastFpsTimestamp < 0.2 ∧ 0 < st.fpsCache) := by
      rintro ⟨_, hpos⟩
      exact absurd hpos (not_lt.mpr hcache)
    simp [getFps, getFpsCore, hcf, hnotcache, hagg, updateFrameTimes, hqpc,
      blendFrameTimes, hft, hag, pyTruthy, hhist, smoothFps_empty]
  · intro cfg dst dnow hm hc
    exact detect_probesDown cfg dst dnow hm hc

/-- Cycle in which every estimator raises on a 60 Hz display. -/
def envAllFail : FpsEnv :=
  { rtss := Except.error (), winApi := Except.error (), perfCtr := Except.error (),
    directQ := Except.error (), loadTemp := Except.error (), attempted := 5,
    cachedGpuLoad := some 50, cachedCpuUsage := none, gputil := Except.error (),
    refresh := 60, title := none, activeGame := none, procNames := [],
    hasQpc := false, qpcOk := false, qpcElapsed := 0 }

/-- Fresh estimation state as set up by the worker constructor. -/
def stFps0 : FpsState :=
  { fpsHistory := [], cfFpsHistory := [], frameTimeHistory := [], fpsCache := 0,
    lastFpsTimestamp := 0, lastHistoryUpdate := none, lastSourceRtss := false,
    lastCounterTime := none, window := 8 }

/-- Witness for no_exception_total_failure_fallback on the concrete
all-failing cycle. -/
theorem no_exception_total_failure_witness :
    isCfGame envAllFail = false ∧ stFps0.fpsCache ≤ 0 ∧
      ((getFps envAllFail stFps0 true 1).1 =
          pyRound ((finalCap envAllFail.refresh false (fallbackEstimate envAllFail) : ℚ) : ℝ) ∧
        ∀ (cfg : Config) (dst : DetectState) (dnow : ℚ), noCacheHit dst dnow →
          dst.cachedTitle = none → (detectGaming cfg envProbesDown dst dnow).1 = false) := by
  have hcf : isCfGame envAllFail = false := by decide
  have hcache : stFps0.fpsCache ≤ 0 := by norm_num [stFps0]
  exact ⟨hcf, hcache, no_exception_total_failure_fallback envAllFail stFps0 1
    rfl rfl rfl rfl rfl hcf rfl rfl hcache rfl rfl⟩
end
section
/-- Lower bound for the second recency weight. -/
theorem two_le_rpow13 : (2 : ℝ) ≤ (2 : ℝ) ^ (1.3 : ℝ) := by
  calc (2 : ℝ) = (2 : ℝ) ^ (1 : ℝ) := (Real.rpow_one 2).symm
  _ ≤ (2 : ℝ) ^ (1.3 : ℝ) := Real.rpow_le_rpow_of_exponent_le (by norm_num) (by norm_num)

/-- Lower bound for the third recency weight. -/
theorem three_le_rpow13 : (3 : ℝ) ≤ (3 : ℝ) ^ (1.3 : ℝ) := by
  calc (3 : ℝ) = (3 : ℝ) ^ (1 : ℝ) := (Real.rpow_one 3).symm
  _ ≤ (3 : ℝ) ^ (1.3 : ℝ) := Real.rpow_le_rpow_of_exponent_le (by norm_num) (by norm_num)

/-- Recency weight list of length two. -/
theorem pyWeights_two : pyWeights 2 = [1, (2 : ℝ) ^ (1.3 : ℝ)] := by
  rw [pyWeights, show List.range 2 = [0, 1] from rfl]
  norm_num [Real.one_rpow]

/-- Recency weight list of length three. -/
theorem pyWeights_three :
    pyWeights 3 = [1, (2 : ℝ) ^ (1.3 : ℝ), (3 : ℝ) ^ (1.3 : ℝ)] := by
  rw [pyWeights, show List.range 3 = [0, 1, 2] from rfl]
  norm_num [Real.one_rpow]

/-- History evaluation: appending 400 to [100]. -/
theorem histApp1 : smoothHistAppend [100] 8 400 = [100, 400] := by
  simp [smoothHistAppend]

/-- History evaluation: appending 400 to [100, 400]. -/
theorem histApp2 : smoothHistAppend [100, 400] 8 400 = [100, 400, 400] := by
  simp [smoothHistAppend]

/-- First general-profile smoothing step of the counterexample run: from
history [100], raw 400 is rate-limited to 123. -/
theorem smooth_step1 : smoothFps false 0 [100] 8 400 = (123, [100, 400]) := by
  have hw2 := two_le_rpow13
  norm_num at hw2
  have hW : (0 : ℝ) < 1 + (2 : ℝ) ^ ((13 : ℝ) / 10) := by positivity
  have hkey : 123 < (100 + 400 * (2 : ℝ) ^ ((13 : ℝ) / 10)) / (1 + (2 : ℝ) ^ ((13 : ℝ) / 10)) := by
    rw [lt_div_iff₀ hW]
    nlinarith [hw2]
  simp only [smoothFps, histApp1, pyWeights_two, pyWeights_one, dotList]
  norm_num
  simp only [pyWeights_two, pyWeights_one]
  norm_num
  rw [if_neg hW.ne']
  set v : ℝ := (100 + 400 * (2 : ℝ) ^ ((13 : ℝ) / 10)) / (1 + (2 : ℝ) ^ ((13 : ℝ) / 10)) with hv
  have habs : |v - 100| = v - 100 := abs_of_pos (by linarith)
  have hc1 : 10 < |v - 100| ∧ 23 < |v - 100| :=
    ⟨by rw [habs]; linarith, by rw [habs]; linarith⟩
  rw [if_pos hc1, if_pos (by linarith : (100 : ℝ) < v)]

/-- Second general-profile smoothing step of the counterexample run is
at least 240. -/
theorem smooth_step2_lb : 240 ≤ (smoothFps false 0 [100, 400] 8 400).1 := by
  have hw2 := two_le_rpow13
  have hu3 := three_le_rpow13
  norm_num at hw2 hu3
  have hW : (0 : ℝ) < 1 + (2 : ℝ) ^ ((13 : ℝ) / 10) := by positivity
  have hWU : (0 : ℝ) < 1 + ((2 : ℝ) ^ ((13 : ℝ) / 10) + (3 : ℝ) ^ ((13 : ℝ) / 10)) := by
    positivity
  have hP : 300 ≤ (100 + 400 * (2 : ℝ) ^ ((13 : ℝ) / 10)) / (1 + (2 : ℝ) ^ ((13 : ℝ) / 10)) := by
    rw [le_div_iff₀ hW]
    nlinarith [hw2]
  have hWv : 350 ≤ (100 + (400 * (2 : ℝ) ^ ((13 : ℝ) / 10) + 400 * (3 : ℝ) ^ ((13 : ℝ) / 10))) /
      (1 + ((2 : ℝ) ^ ((13 : ℝ) / 10) + (3 : ℝ) ^ ((13 : ℝ) / 10))) := by
    rw [le_div_iff₀ hWU]
    nlinarith [hw2, hu3]
  simp only [smoothFps, histApp2, pyWeights_three, pyWeights_two, dotList]
  norm_num
  simp only [pyWeights_three, pyWeights_two]
  norm_num
  simp only [if_pos hW, if_neg hWU.ne']
  set P : ℝ := (100 + 400 * (2 : ℝ) ^ ((13 : ℝ) / 10)) / (1 + (2 : ℝ) ^ ((13 : ℝ) / 10)) with hPd
  set W : ℝ := (100 + (400 * (2 : ℝ) ^ ((13 : ℝ) / 10) + 400 * (3 : ℝ) ^ ((13 : ℝ) / 10))) /
      (1 + ((2 : ℝ) ^ ((13 : ℝ) / 10) + (3 : ℝ) ^ ((13 : ℝ) / 10))) with hWd
  have hmax : (10 : ℝ) ≤ 10 ⊔ P * (1 / 5) := le_max_left _ _
  have hPf : (10 : ℝ) ≤ P * (1 / 5) := by linarith
  split_ifs with hA hB
  · show 240 ≤ P + (10 ⊔ P * (1 / 5))
    linarith
  · show 240 ≤ P - (10 ⊔ P * (1 / 5))
    rw [max_eq_right hPf]
    linarith
  · show 240 ≤ W
    linarith

/-- History evaluation: appending 100 to the empty history. -/
theorem histApp0 : smoothHistAppend [] 8 100 = [100] := by
  simp [smoothHistAppend]

/-- Zeroth general-profile smoothing step of the counterexample run:
from an empty history, raw 100 is returned unchanged. -/
theorem smooth_step0 : smoothFps false 0 [] 8 100 = (100, [100]) := by
  simp only [smoothFps, histApp0, pyWeights_one, dotList]
  norm_num
  simp only [pyWeights_one]
  norm_num

/-- C5 refuted as stated: starting the general profile from an empty
history and feeding raw values 100, 400, 400, the second and third
smoothed outputs are 123 and a value of at least 240, so their gap
exceeds max(10, 0.2 * 123) * 1.25: the limiter is not anchored at the
previous smoothed output. -/
theorem rate_limit_claim_counterexample :
    (smoothFps false 0 [] 8 100).2 = [100] ∧
      ¬ (|(smoothFps false 0 (smoothFps false 0 [100] 8 400).2 8 400).1 -
            (smoothFps false 0 [100] 8 400).1| ≤
          max 10 (0.2 * (smoothFps false 0 [100] 8 400).1) * 1.25) := by
  constructor
  · rw [smooth_step0]
  · rw [smooth_step1]
    show ¬ (|(smoothFps false 0 [100, 400] 8 400).1 - 123| ≤ max 10 (0.2 * 123) * 1.25)
    have h2 := smooth_step2_lb
    intro h
    rw [max_eq_right (by norm_num : (10 : ℝ) ≤ 0.2 * 123),
      abs_of_nonneg (by linarith : (0 : ℝ) ≤ (smoothFps false 0 [100, 400] 8 400).1 - 123)] at h
    linarith

/-- Positivity of the recency weight sums. -/
theorem pyWeightsSum_pos (n : ℕ) (h : 0 < n) : 0 < (pyWeights n).sum := by
  apply List.sum_pos
  · intro x hx
    simp only [pyWeights, List.mem_map, List.mem_range] at hx
    obtain ⟨i, hi, hix⟩ := hx
    rw [← hix]
    exact Real.rpow_pos_of_pos (show (0 : ℝ) < ((i + 1 : ℕ) : ℝ) by positivity) _
  · simp only [pyWeights, ne_eq, List.map_eq_nil_iff]
    intro hr0
    have := List.range_eq_nil.mp hr0
    omega
/-- C5 amended: under the general profile, the rate limiter bounds the
distance between the smoothed output and the recency-weighted average of
the post-append history without its newest entry (the code's
previous_average, which is not the previous smoothed output), by
max(10, 0.2 * previous_average) scaled by 1.15 when the newest history
step rises, 1.25 when it falls, and 1 when it is flat. -/
theorem rate_limit_relative_to_prev_average (c : ℤ) (hist : List ℝ) (window : ℕ) (cur : ℝ)
    (hlen : 2 ≤ (smoothHistAppend hist window cur).length) :
    |(smoothFps false c hist window cur).1 -
        recencyAvg (smoothHistAppend hist window cur).dropLast| ≤
      max 10 (0.2 * recencyAvg (smoothHistAppend hist window cur).dropLast) *
        (if 0 < (smoothHistAppend hist window cur).getLastD 0 -
              (smoothHistAppend hist window cur).getD
                ((smoothHistAppend hist window cur).length - 2) 0 then (1.15 : ℝ)
          else if (smoothHistAppend hist window cur).getLastD 0 -
              (smoothHistAppend hist window cur).getD
                ((smoothHistAppend hist window cur).length - 2) 0 < 0 then 1.25
          else 1) := by
  have h0 : ¬ (smoothHistAppend hist window cur).length = 0 := by omega
  have h1 : 1 < (smoothHistAppend hist window cur).length := by omega
  have hsum := pyWeightsSum_pos (smoothHistAppend hist window cur).length (by omega)
  have hpsum := pyWeightsSum_pos ((smoothHistAppend hist window cur).length - 1) (by omega)
  simp only [smoothFps, Bool.false_eq_true, if_false, recencyAvg, List.length_dropLast]
  rw [if_neg h0, if_neg hsum.ne', if_pos h1, if_pos hpsum]
  set pv : ℝ := dotList (smoothHistAppend hist window cur).dropLast
      (pyWeights ((smoothHistAppend hist window cur).length - 1)) /
      (pyWeights ((smoothHistAppend hist window cur).length - 1)).sum with hpv
  set wv : ℝ := dotList (smoothHistAppend hist window cur)
      (pyWeights (smoothHistAppend hist window cur).length) /
      (pyWeights (smoothHistAppend hist window cur).length).sum with hwv
  set tr : ℝ := (smoothHistAppend hist window cur).getLastD 0 -
      (smoothHistAppend hist window cur).getD
        ((smoothHistAppend hist window cur).length - 2) 0 with htr
  set sc : ℝ := (if 0 < tr then (1.15 : ℝ) else if tr < 0 then 1.25 else 1) with hsc
  set mc : ℝ := (if 0 < tr then max 10 (pv * 0.20 * 1.15)
      else if tr < 0 then max 10 (pv * 0.20 * 1.25) else max 10 (pv * 0.20)) with hmc
  have hmc10 : (10 : ℝ) ≤ mc := by
    rw [hmc]
    split_ifs <;> exact le_max_left _ _
  have hbound : mc ≤ max 10 (0.2 * pv) * sc := by
    rw [hmc, hsc]
    split_ifs with hA hB
    · rw [max_mul_of_nonneg _ _ (by norm_num : (0 : ℝ) ≤ 1.15)]
      exact max_le_max (by norm_num) (le_of_eq (by ring))
    · rw [max_mul_of_nonneg _ _ (by norm_num : (0 : ℝ) ≤ 1.25)]
      exact max_le_max (by norm_num) (le_of_eq (by ring))
    · rw [mul_one]
      exact le_of_eq (by rw [mul_comm pv 0.20]; norm_num)
  split_ifs with hclamp hgt
  · rw [show pv + mc - pv = mc by ring, abs_of_nonneg (by linarith)]
    exact hbound
  · rw [show pv - mc - pv = -mc by ring, abs_neg, abs_of_nonneg (by linarith)]
    exact hbound
  · exact le_trans (not_lt.mp hclamp) hbound

/-- Witness for rate_limit_relative_to_prev_average on the history
[100] with raw value 400. -/
theorem rate_limit_relative_witness :
    2 ≤ (smoothHistAppend [100] 8 400).length ∧
      |(smoothFps false 0 [100] 8 400).1 -
          recencyAvg (smoothHistAppend [100] 8 400).dropLast| ≤
        max 10 (0.2 * recencyAvg (smoothHistAppend [100] 8 400).dropLast) *
          (if 0 < (smoothHistAppend [100] 8 400).getLastD 0 -
                (smoothHistAppend [100] 8 400).getD
                  ((smoothHistAppend [100] 8 400).length - 2) 0 then (1.15 : ℝ)
            else if (smoothHistAppend [100] 8 400).getLastD 0 -
                (smoothHistAppend [100] 8 400).getD
                  ((smoothHistAppend [100] 8 400).length - 2) 0 < 0 then 1.25
            else 1) := by
  have hl : 2 ≤ (smoothHistAppend [100] 8 400).length := by rw [histApp1]; norm_num
  exact ⟨hl, rate_limit_relative_to_prev_average 0 [100] 8 400 hl⟩
